import Mathlib

/-!
Verification of the Quiz Lifecycle & Access Engine of the quiz platform.

The data model and the operations below are shallow embeddings of the
TypeScript source: the `Quiz` and `Response` records, the availability
classification (`isQuizAvailable` in `StudentDashboard.tsx`, combined with
the store query's publication filter), the attempted-quiz filtering, the
teacher dashboard's quiz counts, the student dashboard's average score, and
the recent-results view. Timestamps are modelled as integers (epoch
milliseconds), scores as rationals.
-/

namespace QuizBro

/-- Quiz record, after the `quizzes` table row of the source
(`StudentDashboard.tsx`, interface `Quiz`): `scheduled_for` is nullable,
hence an `Option`. -/
structure Quiz where
  id : String
  title : String
  description : String
  duration : Nat
  is_published : Bool
  scheduled_for : Option Int
  created_at : Int
deriving DecidableEq, Repr

/-- Response record, after the `responses` table row of the source
(`StudentDashboard.tsx`, interface `Response`): `total_marks` is a numeric
percentage score, modelled as a rational. -/
structure Response where
  id : String
  quiz_id : String
  total_marks : ℚ
  submitted_at : Int
deriving DecidableEq, Repr

/-- Embedding of `isQuizAvailable` (`StudentDashboard.tsx` lines 88–91):
returns `true` when `scheduled_for` is null, otherwise compares the
scheduled time against the current time with `≤`. -/
def isQuizAvailable (quiz : Quiz) (now : Int) : Bool :=
  match quiz.scheduled_for with
  | none => true
  | some t => decide (t ≤ now)

/-- Availability classification of a quiz relative to a reference clock. -/
inductive Availability where
  | NotPublished
  | ScheduledFuture
  | Available
deriving DecidableEq, Repr

/-- Availability of a quiz as the code computes it: unpublished quizzes are
excluded by the store query filter `.eq('is_published', true)`
(`StudentDashboard.tsx` line 49); for published quizzes the badge and the
start button use `isQuizAvailable` (lines 173, 179, 206). -/
def availability (quiz : Quiz) (now : Int) : Availability :=
  if !quiz.is_published then .NotPublished
  else if isQuizAvailable quiz now then .Available
  else .ScheduledFuture

/-- Visibility of a quiz to a student: the store query keeps only published
quizzes and the client filter drops already-attempted ones
(`StudentDashboard.tsx` lines 49, 67–68). -/
def visibleToStudent (quiz : Quiz) (attemptedQuizIds : List String) : Bool :=
  quiz.is_published && !(attemptedQuizIds.contains quiz.id)

/-- A quiz is attemptable when it is shown in the available list and its
start button is enabled (`StudentDashboard.tsx` lines 204–210, where the
button is disabled unless `isQuizAvailable` holds). -/
def attemptable (quiz : Quiz) (now : Int) (attemptedQuizIds : List String) : Bool :=
  visibleToStudent quiz attemptedQuizIds && isQuizAvailable quiz now

/-- Ids of the quizzes a student has already attempted
(`StudentDashboard.tsx` line 67: `responses.map(r => r.quiz_id)`). -/
def attemptedIdsOf (responses : List Response) : List String :=
  responses.map (·.quiz_id)

/-- The available-quiz list pipeline: the query returns published quizzes,
then the client removes attempted ones (`StudentDashboard.tsx` lines 46–68). -/
def availableList (quizzes : List Quiz) (attemptedQuizIds : List String) : List Quiz :=
  (quizzes.filter (·.is_published)).filter (fun q => !(attemptedQuizIds.contains q.id))

/-- Quick-stats record of the teacher dashboard (part_000, the three stat
cards): total, published and scheduled quiz counts. -/
structure QuizCounts where
  total : Nat
  published : Nat
  scheduled : Nat
deriving DecidableEq, Repr

/-- Embedding of the teacher dashboard's quick stats (part_000 lines
~305–340): `quizzes.length`, `quizzes.filter(q => q.is_published).length`
and `quizzes.filter(q => q.scheduled_for).length`. -/
def quizCounts (quizzes : List Quiz) : QuizCounts where
  total := quizzes.length
  published := (quizzes.filter (·.is_published)).length
  scheduled := (quizzes.filter (fun q => q.scheduled_for.isSome)).length

/-- Embedding of the student dashboard's average score
(`StudentDashboard.tsx` lines 158–160): `Math.round` of the sum of
`total_marks` divided by the count, guarded by an emptiness check.
Mathlib's `round` is exactly `Math.round`: round half towards `+∞`. -/
def averageScore (responses : List Response) : Int :=
  if responses.length > 0 then
    round ((responses.map (·.total_marks)).sum / (responses.length : ℚ))
  else 0

/-- Quick-stats record of the student dashboard (`StudentDashboard.tsx`
lines 126–166). -/
structure StudentStats where
  availableCount : Nat
  completedCount : Nat
  averageScore : Int
deriving DecidableEq, Repr

/-- Student dashboard quick stats: list lengths and the average score. -/
def studentStats (availableQuizzes : List Quiz) (completedResponses : List Response) :
    StudentStats where
  availableCount := availableQuizzes.length
  completedCount := completedResponses.length
  averageScore := averageScore completedResponses

/-- Arithmetic mean of the `total_marks` values, written after the spec's
words (sum over count) to compare with the code's `averageScore`. -/
def arithmeticMean (responses : List Response) : ℚ :=
  (responses.map (·.total_marks)).sum / (responses.length : ℚ)

/-- Responses ordered most-recent-submitted-first: the store query's
order clause on `submitted_at` with ascending false (`StudentDashboard.tsx`
line 62), modelled as sorting a copy of the list by descending
`submitted_at`. -/
def sortBySubmittedDesc (rs : List Response) : List Response :=
  List.insertionSort (fun a b => b.submitted_at ≤ a.submitted_at) rs

instance : IsTotal Response (fun a b => b.submitted_at ≤ a.submitted_at) :=
  ⟨fun a b => le_total b.submitted_at a.submitted_at⟩

instance : IsTrans Response (fun a b => b.submitted_at ≤ a.submitted_at) :=
  ⟨fun _ _ _ h₁ h₂ => le_trans h₂ h₁⟩

/-- Embedding of the recent-results view (`StudentDashboard.tsx` line 230):
`completedQuizzes.slice(0, 5)` over the descending-ordered responses —
`slice` copies, so the general operation is a truncation of the sorted copy
with a `limit` parameter (observed value 5). -/
def recentResults (completedResponses : List Response) (limit : Nat) : List Response :=
  (sortBySubmittedDesc completedResponses).take limit

/-- Seven completed responses with distinct submission times, listed out of
order, for the spec's `limit = 5` example. -/
def sampleSeven : List Response :=
  [{ id := "s1", quiz_id := "p1", total_marks := 10, submitted_at := 5 },
   { id := "s2", quiz_id := "p2", total_marks := 20, submitted_at := 2 },
   { id := "s3", quiz_id := "p3", total_marks := 30, submitted_at := 9 },
   { id := "s4", quiz_id := "p4", total_marks := 40, submitted_at := 1 },
   { id := "s5", quiz_id := "p5", total_marks := 50, submitted_at := 7 },
   { id := "s6", quiz_id := "p6", total_marks := 60, submitted_at := 3 },
   { id := "s7", quiz_id := "p7", total_marks := 70, submitted_at := 8 }]

/-- Three published quizzes, two of them with ids in the sample attempted
sets, used to exercise the attempted-filter. -/
def sampleQuizzes : List Quiz :=
  [{ id := "x", title := "X", description := "", duration := 5,
     is_published := true, scheduled_for := none, created_at := 0 },
   { id := "y", title := "Y", description := "", duration := 5,
     is_published := true, scheduled_for := some 10, created_at := 1 },
   { id := "z", title := "Z", description := "", duration := 5,
     is_published := true, scheduled_for := none, created_at := 2 }]

/-- Three completed responses scoring 80, 90 and 70, the spec's example. -/
def sampleScores : List Response :=
  [{ id := "r1", quiz_id := "q1", total_marks := 80, submitted_at := 3 },
   { id := "r2", quiz_id := "q2", total_marks := 90, submitted_at := 2 },
   { id := "r3", quiz_id := "q3", total_marks := 70, submitted_at := 1 }]

end QuizBro

namespace QuizBro

/-- C1: for every quiz and reference time, `availability` is `NotPublished`
when the publication flag is false; otherwise `ScheduledFuture` when a
scheduled time is present and strictly in the future; otherwise `Available`
— and the boundary is inclusive: a published quiz scheduled exactly at `now`
is `Available`. -/
theorem availability_rule (q : Quiz) (now t : Int) :
    (q.is_published = false → availability q now = .NotPublished) ∧
    (q.is_published = true → q.scheduled_for = some t → now < t →
      availability q now = .ScheduledFuture) ∧
    (q.is_published = true → q.scheduled_for = some t → t ≤ now →
      availability q now = .Available) ∧
    (q.is_published = true → q.scheduled_for = none →
      availability q now = .Available) ∧
    (q.is_published = true → q.scheduled_for = some now →
      availability q now = .Available) := by
  refine ⟨fun hp => ?_, fun hp hs hlt => ?_, fun hp hs hle => ?_,
    fun hp hs => ?_, fun hp hs => ?_⟩ <;>
    simp_all [availability, isQuizAvailable]

/-- Witness for C1: a concrete published quiz scheduled exactly at the
reference time is `Available`. -/
theorem availability_rule_witness :
    availability
      { id := "q1", title := "T", description := "", duration := 10,
        is_published := true, scheduled_for := some 1000, created_at := 0 }
      1000 = .Available := by
  have h := availability_rule
    { id := "q1", title := "T", description := "", duration := 10,
      is_published := true, scheduled_for := some 1000, created_at := 0 }
    1000 1000
  exact h.2.2.2.2 rfl rfl

/-- C2: `attemptable` holds exactly when the quiz is visible to the student
and its availability is `Available`; in particular it is false for any quiz
whose id is among the attempted ids, whatever its schedule. -/
theorem attemptable_iff (q : Quiz) (now : Int) (attemptedQuizIds : List String) :
    (attemptable q now attemptedQuizIds = true ↔
      (visibleToStudent q attemptedQuizIds = true ∧ availability q now = .Available)) ∧
    (q.id ∈ attemptedQuizIds → attemptable q now attemptedQuizIds = false) := by
  constructor
  · constructor
    · intro h
      simp only [attemptable, Bool.and_eq_true] at h
      refine ⟨h.1, ?_⟩
      have hp : q.is_published = true := by
        have hv := h.1
        simp only [visibleToStudent, Bool.and_eq_true] at hv
        exact hv.1
      simp [availability, hp, h.2]
    · rintro ⟨hv, ha⟩
      have hp : q.is_published = true := by
        simp only [visibleToStudent, Bool.and_eq_true] at hv
        exact hv.1
      cases hq : isQuizAvailable q now with
      | true => simp [attemptable, hv, hq]
      | false => simp [availability, hp, hq] at ha
  · intro hmem
    simp [attemptable, visibleToStudent, hmem]

/-- Witness for C2: a concrete already-attempted quiz whose schedule has
passed is still not attemptable. -/
theorem attemptable_iff_witness :
    attemptable
      { id := "q2", title := "T", description := "", duration := 10,
        is_published := true, scheduled_for := some 0, created_at := 0 }
      1000 ["q2"] = false := by
  have h := attemptable_iff
    { id := "q2", title := "T", description := "", duration := 10,
      is_published := true, scheduled_for := some 0, created_at := 0 }
    1000 ["q2"]
  exact h.2 (by decide)

/-- C3: a quiz is visible to a student exactly when its publication flag is
true and its id is not among the attempted ids; an unpublished quiz is never
visible. -/
theorem visibleToStudent_iff (q : Quiz) (attemptedQuizIds : List String) :
    (visibleToStudent q attemptedQuizIds = true ↔
      (q.is_published = true ∧ q.id ∉ attemptedQuizIds)) ∧
    (q.is_published = false → visibleToStudent q attemptedQuizIds = false) := by
  constructor
  · simp [visibleToStudent]
  · intro hp
    simp [visibleToStudent, hp]

/-- Witness for C3: a concrete unpublished quiz with an elapsed schedule is
not visible, by the second part of the characterization. -/
theorem visibleToStudent_iff_witness :
    visibleToStudent
      { id := "q3", title := "T", description := "", duration := 10,
        is_published := false, scheduled_for := some 0, created_at := 0 }
      [] = false := by
  have h := visibleToStudent_iff
    { id := "q3", title := "T", description := "", duration := 10,
      is_published := false, scheduled_for := some 0, created_at := 0 }
    []
  exact h.2 rfl

/-- C4: on a non-empty list of completed responses the average score is the
arithmetic mean of the `total_marks` values rounded to the nearest integer,
and on the example scores 80, 90, 70 it is 80. -/
theorem averageScore_rounded_mean :
    (∀ rs : List Response, rs ≠ [] →
      averageScore rs = round (arithmeticMean rs)) ∧
    averageScore sampleScores = 80 := by
  constructor
  · intro rs hne
    have hlen : rs.length > 0 := List.length_pos.mpr hne
    simp [averageScore, arithmeticMean, hlen]
  · have h240 : ((sampleScores.map (·.total_marks)).sum : ℚ) = 240 := by
      norm_num [sampleScores]
    have hl : sampleScores.length = 3 := by rfl
    simp only [averageScore, hl, h240]
    norm_num

/-- Witness for C4: applying the rounded-mean characterization to the
concrete example list. -/
theorem averageScore_rounded_mean_witness :
    averageScore sampleScores = round (arithmeticMean sampleScores) :=
  averageScore_rounded_mean.1 sampleScores (by decide)

/-- C5: with zero completed responses the average score is 0 for every
value of the other argument — the division is guarded by the emptiness
check, and the operation is total. -/
theorem studentStats_empty_avg (availableQuizzes : List Quiz) :
    (studentStats availableQuizzes []).averageScore = 0 ∧
    averageScore [] = 0 := by
  constructor <;> rfl

/-- C6: `quizCounts` counts all quizzes, the published ones, and the ones
whose scheduled time is non-null (no reference to the current time at all),
and on the empty list all three counts are 0. -/
theorem quizCounts_spec (quizzes : List Quiz) :
    (quizCounts quizzes).total = quizzes.length ∧
    (quizCounts quizzes).published = quizzes.countP (fun q => q.is_published) ∧
    (quizCounts quizzes).scheduled = quizzes.countP (fun q => q.scheduled_for.isSome) ∧
    quizCounts [] = ⟨0, 0, 0⟩ := by
  refine ⟨rfl, ?_, ?_, rfl⟩ <;>
    simp [quizCounts, List.countP_eq_length_filter]

/-- C7: `recentResults` is a truncation, to at most `limit` entries, of a
descending-by-`submitted_at` sorted copy of the input: the sorted copy is a
permutation of the input (the input list itself is untouched — the embedding
is pure, so no mutation is possible), the output is pairwise descending, its
length is `min limit n`, and on the seven-element example with limit 5 it is
exactly the five most recent responses in descending order. -/
theorem recentResults_spec (rs : List Response) (limit : Nat) :
    (sortBySubmittedDesc rs).Perm rs ∧
    List.Pairwise (fun a b => b.submitted_at ≤ a.submitted_at) (recentResults rs limit) ∧
    (recentResults rs limit).length = min limit rs.length ∧
    recentResults rs limit <+: sortBySubmittedDesc rs ∧
    recentResults sampleSeven 5 =
      [{ id := "s3", quiz_id := "p3", total_marks := 30, submitted_at := 9 },
       { id := "s7", quiz_id := "p7", total_marks := 70, submitted_at := 8 },
       { id := "s5", quiz_id := "p5", total_marks := 50, submitted_at := 7 },
       { id := "s1", quiz_id := "p1", total_marks := 10, submitted_at := 5 },
       { id := "s6", quiz_id := "p6", total_marks := 60, submitted_at := 3 }] := by
  refine ⟨List.perm_insertionSort _ rs, ?_, ?_, List.take_prefix _ _, by decide⟩
  · exact List.Pairwise.sublist (List.take_sublist _ _)
      (List.sorted_insertionSort _ rs)
  · simp [recentResults, sortBySubmittedDesc, List.length_take,
      List.length_insertionSort]

/-- C8: every engine operation is deterministic — it is a pure function of
its explicit arguments and the supplied current time, so two invocations
with equal arguments give equal results. -/
theorem engine_deterministic (q q' : Quiz) (now now' : Int)
    (ids ids' : List String) (qs qs' : List Quiz) (av av' : List Quiz)
    (rs rs' : List Response) (lim lim' : Nat)
    (hq : q = q') (hn : now = now') (hi : ids = ids') (hqs : qs = qs')
    (hav : av = av') (hrs : rs = rs') (hl : lim = lim') :
    availability q now = availability q' now' ∧
    visibleToStudent q ids = visibleToStudent q' ids' ∧
    attemptable q now ids = attemptable q' now' ids' ∧
    quizCounts qs = quizCounts qs' ∧
    studentStats av rs = studentStats av' rs' ∧
    recentResults rs lim = recentResults rs' lim' := by
  subst hq hn hi hqs hav hrs hl
  exact ⟨rfl, rfl, rfl, rfl, rfl, rfl⟩

/-- Witness for C8: determinism instantiated at concrete sample inputs. -/
theorem engine_deterministic_witness :
    availability
      { id := "q8", title := "T", description := "", duration := 10,
        is_published := true, scheduled_for := none, created_at := 0 } 5 =
    availability
      { id := "q8", title := "T", description := "", duration := 10,
        is_published := true, scheduled_for := none, created_at := 0 } 5 :=
  (engine_deterministic
    { id := "q8", title := "T", description := "", duration := 10,
      is_published := true, scheduled_for := none, created_at := 0 }
    { id := "q8", title := "T", description := "", duration := 10,
      is_published := true, scheduled_for := none, created_at := 0 }
    5 5 [] [] [] [] [] [] [] [] 5 5
    rfl rfl rfl rfl rfl rfl rfl).1

/-- C9: enlarging the attempted-id set can only shrink the available list:
for attempted sets A ⊆ B, the list computed with B is a sublist of the one
computed with A, visibility with B implies visibility with A, and the
available count does not increase. -/
theorem availableList_antitone (qs : List Quiz) (A B : List String)
    (hAB : A ⊆ B) :
    (availableList qs B).Sublist (availableList qs A) ∧
    (∀ q : Quiz, visibleToStudent q B = true → visibleToStudent q A = true) ∧
    (availableList qs B).length ≤ (availableList qs A).length := by
  have hsub : (availableList qs B).Sublist (availableList qs A) := by
    apply List.monotone_filter_right
    intro q hq
    simp at hq ⊢
    exact fun hmem => hq (hAB hmem)
  refine ⟨hsub, ?_, hsub.length_le⟩
  intro q hv
  simp [visibleToStudent] at hv ⊢
  exact ⟨hv.1, fun hmem => hv.2 (hAB hmem)⟩

/-- Witness for C9: with the sample quizzes, growing the attempted set from
one id to two does not increase the available count. -/
theorem availableList_antitone_witness :
    (availableList sampleQuizzes ["x", "y"]).length ≤
      (availableList sampleQuizzes ["x"]).length :=
  (availableList_antitone sampleQuizzes ["x"] ["x", "y"]
    (by intro a ha; simp at ha; simp [ha])).2.2

/-- C10: when every `total_marks` value lies in the percentage range 0–100,
the average score also lies in 0–100 (and it is 0 on the empty list). -/
theorem averageScore_range (rs : List Response)
    (h : ∀ r ∈ rs, 0 ≤ r.total_marks ∧ r.total_marks ≤ 100) :
    0 ≤ averageScore rs ∧ averageScore rs ≤ 100 := by
  rcases eq_or_ne rs [] with hnil | hne
  · subst hnil
    exact ⟨le_refl 0, by norm_num [averageScore]⟩
  have hlen : rs.length > 0 := List.length_pos.mpr hne
  have hlenQ : (0 : ℚ) < (rs.length : ℚ) := by exact_mod_cast hlen
  have hsum0 : (0 : ℚ) ≤ (rs.map (·.total_marks)).sum := by
    apply List.sum_nonneg
    intro x hx
    rcases List.mem_map.mp hx with ⟨r, hr, hrx⟩
    exact hrx ▸ (h r hr).1
  have hsum100 : (rs.map (·.total_marks)).sum ≤ (rs.length : ℚ) * 100 := by
    calc (rs.map (·.total_marks)).sum
        ≤ (rs.map (·.total_marks)).length • (100 : ℚ) := by
          apply List.sum_le_card_nsmul
          intro x hx
          rcases List.mem_map.mp hx with ⟨r, hr, hrx⟩
          exact hrx ▸ (h r hr).2
      _ = (rs.length : ℚ) * 100 := by
          simp [List.length_map, nsmul_eq_mul]
  have hmean0 : (0 : ℚ) ≤ (rs.map (·.total_marks)).sum / (rs.length : ℚ) :=
    div_nonneg hsum0 hlenQ.le
  have hmean100 : (rs.map (·.total_marks)).sum / (rs.length : ℚ) ≤ 100 := by
    rw [div_le_iff₀ hlenQ]
    linarith [hsum100]
  constructor
  · have : averageScore rs = round ((rs.map (·.total_marks)).sum / (rs.length : ℚ)) := by
      simp [averageScore, hlen]
    rw [this, round_eq]
    apply Int.le_floor.mpr
    push_cast
    linarith
  · have : averageScore rs = round ((rs.map (·.total_marks)).sum / (rs.length : ℚ)) := by
      simp [averageScore, hlen]
    rw [this, round_eq]
    have : ((rs.map (·.total_marks)).sum / (rs.length : ℚ)) + 1 / 2 < 101 := by
      linarith
    have hfl := Int.floor_lt.mpr (by exact_mod_cast this :
      ((rs.map (·.total_marks)).sum / (rs.length : ℚ)) + 1 / 2 < ((101 : ℤ) : ℚ))
    omega

/-- Witness for C10: the example scores 80, 90, 70 are all percentages, and
the resulting average score lies between 0 and 100. -/
theorem averageScore_range_witness :
    0 ≤ averageScore sampleScores ∧ averageScore sampleScores ≤ 100 :=
  averageScore_range sampleScores (by
    intro r hr
    simp [sampleScores] at hr
    rcases hr with h1 | h2 | h3 <;> subst_vars <;> norm_num)

end QuizBro
